import Mathlib

/-!
Shallow embedding of `src/chrome/content/code/rulesetUpdate.js` from the
https-everywhere repository: the secure ruleset-update pipeline
(manifest validation → version/branch gating → signature verification →
artifact fetch → digest computation → database swap).

External collaborators (the Mozilla platform services: JSON.parse,
nsIDataSignatureVerifier, nsICryptoHash, the HTTP client, the preference
store) are modelled as an explicit environment `Env`; the mutable world
(preferences, the live ruleset database, the staged temporary file, and
observation counters for issued requests) is an explicit `UpdateState`
threaded through the pipeline functions.
-/

namespace RulesetUpdate

/-- JS values as far as this module manipulates manifest fields: a field read
off a parsed JSON object is either a string or `undefined` (absent field). -/
inductive JSVal where
  | undef
  | str (s : String)
deriving DecidableEq, Repr

/-- Parsed form of the update.json manifest: the five fields the code reads
(`updateObj.version`, `.branch`, `.source`, `.hashfn`, `.hash`). A field that
is absent in the JSON document is `JSVal.undef`. -/
structure UpdateObj where
  version : JSVal
  branch : JSVal
  source : JSVal
  hashfn : JSVal
  hash : JSVal
deriving DecidableEq, Repr

/-- Digest algorithms accepted by `hashBinaryFile` (nsICryptoHash constants
MD5, SHA1, SHA256, SHA384, SHA512). -/
inductive HashAlg where
  | md5
  | sha1
  | sha256
  | sha384
  | sha512
deriving DecidableEq, Repr

/-- Hardcoded public key used to verify the signature over the update data
(constant `RULESET_UPDATE_KEY` in rulesetUpdate.js). -/
def RULESET_UPDATE_KEY : String :=
  "MIIBIjANBgkqhkiG9w0BAQEFAAOCAQ8AMIIBCgKCAQEA7wJz/Ekn4loB+GX/TnObTo/5J0/aq1hBl+xeSyCUX/fggjju5jnRnbnQx10OaZ655Yft4Cs2IfdIh95NYsN+gfi6HVesy/Q9G72BjhpW6+gTlkW9vW56xwjv+Cpi5/20SKbvMZCMXTvR50HqLaLiOeLyAOQv06FKlyF5kbgQwpayExii75KFJL3HlH5+mZfNfKElNK9Oyiig7sqnVTOdovNCFnW8zom2fS3YyODaFvPUSmo1Yd7Mr0xWjE5rAV7k70aZlR1NEze/Tfcf42LEhY5XkflczIWh+cse/v/sbZadS9jxbD2SgEJuLatF5zupmd0acvj1II8do2RE95FQCQIDAQAB"

/-- Environment of external collaborators, fixed for one update attempt.
`jsonParse` models the JS builtin `JSON.parse` applied to the manifest body
(`none` models a thrown SyntaxError); `verifyData` models
`nsIDataSignatureVerifier.verifyData(data, signature, key)`; `sigResponse` is
the body the HTTP client delivers for the signature URL; `manifestResponse`
the body delivered for the manifest URL; `artifact` the bytes delivered by the
XHR for the database file (`none` models a null `xhr.response`);
`cryptoDigest` models nsICryptoHash digesting a byte stream. -/
structure Env where
  jsonParse : String → Option UpdateObj
  verifyData : String → String → String → Bool
  sigResponse : String
  manifestResponse : String
  artifact : Option (List Nat)
  cryptoDigest : HashAlg → List Nat → List Nat

/-- State of the live rulesets.sqlite database: either both ruleset tables
are present with some row contents, or the `rulesets` and `targets` tables
have been dropped (by `applyNewRuleset`) and nothing recreated them. -/
inductive DBState where
  | intact (contents : List Nat)
  | tablesDropped
deriving DecidableEq, Repr

/-- Mutable world threaded through one or more update attempts.
`extVersion`, `extBranch`, `rulesetVersion` are the preference values
(VERSION_PREF, BRANCH_PREF, RULESET_VERSION_PREF); `liveDB` abstracts the
live rulesets.sqlite database; `stagedFile` the temporary
download at TMP_RULESET_DBFILE_PATH; `sigRequests` counts HTTP requests issued
to the signature URL, `sigVerifRuns` the invocations of the signature
verifier, `artifactRequests` records the URLs the artifact XHR was opened on,
and `indexReinits` the calls to `HTTPSRules.init()`. -/
structure UpdateState where
  extVersion : String
  extBranch : String
  rulesetVersion : String
  liveDB : DBState
  stagedFile : Option (List Nat)
  sigRequests : Nat
  sigVerifRuns : Nat
  artifactRequests : List JSVal
  indexReinits : Nat
deriving DecidableEq, Repr

/-- Terminal outcome of one update attempt, as observed by the caller
(scheduler). `thrown` models a JS exception escaping the module uncaught
(there is no try/catch anywhere in rulesetUpdate.js). `applied` is the
clean-success outcome of a completed swap; the code as written never
produces it, because `applyNewRuleset` always throws (see its comment). -/
inductive Outcome where
  | rejectedVersion
  | rejectedBranch
  | sigFailure
  | applied
  | noData
  | thrown (msg : String)
deriving DecidableEq, Repr

/-- Index of the last occurrence of `c` in `l` starting the count at `i`,
or `none`. Helper for `jsLastIndexOf`. -/
def lastIndexOfAux (c : Char) : List Char → Nat → Option Nat
  | [], _ => none
  | x :: xs, i =>
    match lastIndexOfAux c xs (i + 1) with
    | some j => some j
    | none => if x = c then some i else none

/-- JS `String.prototype.lastIndexOf` for a single character: the index of the
last occurrence, or `-1` when the character does not occur. -/
def jsLastIndexOf (s : String) (c : Char) : Int :=
  match lastIndexOfAux c s.data 0 with
  | some i => (i : Int)
  | none => -1

/-- JS `String.prototype.slice(start, end)` on a character list: negative
indices count from the end and indices are clamped to the string bounds. -/
def jsSlice (l : List Char) (start stop : Int) : List Char :=
  let len : Int := l.length
  let norm : Int → Nat := fun i => if i < 0 then (max (len + i) 0).toNat else (min i len).toNat
  (l.take (norm stop)).drop (norm start)

/-- Numeric value of the leading decimal digits of a character list
(strtol-style: stop at the first non-digit, empty means 0). Helper for the
version-component parser. -/
def leadingNatAux : List Char → Nat → Nat
  | [], acc => acc
  | c :: cs, acc =>
    if c.isDigit then leadingNatAux cs (acc * 10 + (c.toNat - '0'.toNat)) else acc

/-- Split a character list on the dot character, keeping empty components
(the behavior of splitting a version string on each separator). -/
def splitOnDot : List Char → List (List Char)
  | [] => [[]]
  | c :: cs =>
    if c = '.' then [] :: splitOnDot cs
    else
      match splitOnDot cs with
      | r :: rs => (c :: r) :: rs
      | [] => [[c]]

/-- Modelled from the spec: the external `nsIVersionComparator` service is not
part of this repository; per the spec it implements a semantic
(dot-separated, not lexicographic) ordering. We model it for numeric dotted
versions: split on dots and read each component's leading digits. -/
def splitVersion (s : String) : List Nat :=
  (splitOnDot s.data).map (fun comp => leadingNatAux comp 0)

/-- Component-wise comparison of version-part lists, a missing part comparing
as 0 (so "1.2" = "1.2.0" and "1.2.3" > "1.2"): negative, zero or positive. -/
def cmpParts : List Nat → List Nat → Int
  | [], bs => if bs.all (fun b => b = 0) then 0 else -1
  | a :: as, [] => if a ≠ 0 then 1 else cmpParts as []
  | a :: as, b :: bs =>
    if a > b then 1 else if a < b then -1 else cmpParts as bs

/-- Modelled from the spec: `nsIVersionComparator.compare(a, b)` for numeric
dotted versions — negative when `a < b`, 0 when equal, positive when
`a > b` under the semantic dot-separated ordering. -/
def versionCompare (a b : String) : Int :=
  cmpParts (splitVersion a) (splitVersion b)

/-- Embedding of `checkVersionRequirements(extVersion, rsVersion, newVersion)`
(rulesetUpdate.js lines 138-147): the candidate's parent component
`newVersion.slice(0, newVersion.lastIndexOf(.))` must compare equal to the
extension version, and the candidate must compare strictly greater than the
installed ruleset version. When the manifest's `version` field is absent,
`newVersion.slice` throws a TypeError (modelled as `.error`). -/
def checkVersionRequirements (extVersion rsVersion : String) (newVersion : JSVal) :
    Except String Bool :=
  match newVersion with
  | .undef => .error "TypeError: newVersion.slice is not a function"
  | .str nv =>
    let newRulesetExtVer : String := ⟨jsSlice nv.data 0 (jsLastIndexOf nv '.')⟩
    let sameExtVer : Bool := versionCompare extVersion newRulesetExtVer == 0
    let newRSVer : Bool := decide (0 < versionCompare nv rsVersion)
    .ok (sameExtVer && newRSVer)

/-- Whitespace as recognized by JS `String.prototype.trim`, restricted to the
common ASCII whitespace characters. -/
def isJsSpace (c : Char) : Bool :=
  c = ' ' || c = '\t' || c = '\n' || c = '\r'

/-- Model of JS `String.prototype.trim`: drop leading and trailing
whitespace. -/
def jsTrim (s : String) : String :=
  ⟨(((s.data.dropWhile isJsSpace).reverse.dropWhile isJsSpace).reverse)⟩

/-- Embedding of the inner `toHexStr(charCode)` helper of `hashBinaryFile`
(rulesetUpdate.js lines 167-169): JS computes
`(0 + charCode.toString(16)).slice(-2)` — prepend a zero to the lowercase
hexadecimal rendering and keep the last two characters. -/
def toHexStr (charCode : Nat) : String :=
  let padded : List Char := '0' :: Nat.toDigits 16 charCode
  ⟨jsSlice padded (-2) (padded.length : Int)⟩

/-- Dispatch of the digest-algorithm name in `hashBinaryFile` (rulesetUpdate.js
lines 155-160): the if/else-if chain over the five accepted names; any other
value — including an absent field — falls through to the `return null`
branch, modelled as `none`. -/
def hashAlgOfName (hashfn : JSVal) : Option HashAlg :=
  if hashfn = .str "md5" then some .md5
  else if hashfn = .str "sha1" then some .sha1
  else if hashfn = .str "sha256" then some .sha256
  else if hashfn = .str "sha384" then some .sha384
  else if hashfn = .str "sha512" then some .sha512
  else none

/-- Embedding of `hashBinaryFile(path, length, hashfn)` (rulesetUpdate.js
lines 149-171). The file I/O is externalized: `content` stands for the bytes
read back from the staged file and `cryptoDigest` for nsICryptoHash. The
function dispatches via `hashAlgOfName`, returns `none` (JS `null`) for an
unrecognized name, and otherwise hex-encodes each byte of the digest with
`toHexStr` and joins the pieces. -/
def hashBinaryFile (cryptoDigest : HashAlg → List Nat → List Nat)
    (content : List Nat) (hashfn : JSVal) : Option String :=
  match hashAlgOfName hashfn with
  | none => none
  | some alg =>
    let hash := cryptoDigest alg content
    some (String.join (hash.map toHexStr))

/-- Embedding of `verifyUpdateSignature(updateStr, signature)` (rulesetUpdate.js
lines 127-132): delegate to the external nsIDataSignatureVerifier with the
hardcoded RULESET_UPDATE_KEY. -/
def verifyUpdateSignature (env : Env) (updateStr signature : String) : Bool :=
  env.verifyData updateStr signature RULESET_UPDATE_KEY

/-- Embedding of `applyNewRuleset()` (rulesetUpdate.js lines 218-249). The
function opens the staged temporary database and the live database, executes
`drop table rulesets` and `drop table targets` against the live database
(lines 225-226), and then calls
`mainDB.createStatement("insert into targets ...")` (line 229) with no
`create table` in between: preparing that statement against the just-dropped
`targets` table throws NS_ERROR_FAILURE, so the function never copies a row,
never removes the temporary file, and never reaches `HTTPSRules.init()` (the
cleanup is additionally unreachable because line 243 misspells
`Ci.nsILocalFIle`). If the live tables are already gone from a previous
attempt, preparing `drop table rulesets` itself throws first and the
database is left as it was. The installed ruleset-version preference is NOT
touched anywhere in the function. (The staged temporary database is assumed
well-formed; a malformed one would only throw a few lines earlier, at line
228, with the same drops already executed.) -/
def applyNewRuleset (s : UpdateState) : Outcome × UpdateState :=
  match s.liveDB with
  | .intact _ =>
    (.thrown "NS_ERROR_FAILURE: no such table: targets",
      { s with liveDB := .tablesDropped })
  | .tablesDropped =>
    (.thrown "NS_ERROR_FAILURE: no such table: rulesets", s)

/-- Embedding of `fetchRulesetDBFile(url, hashfn, hash)` (rulesetUpdate.js
lines 178-213). The XHR is opened on `url` unconditionally — the source
contains no check of the URL scheme. On a non-null response the bytes are
written to the staged path, `hashBinaryFile` is invoked, and then — because
the digest comparison `if (dbHash == hash)` is commented out in the source
(lines 199-206) — `applyNewRuleset()` is called unconditionally, whatever
`dbHash` and `hash` are. A null response only logs. -/
def fetchRulesetDBFile (env : Env) (url hashfn hash : JSVal) (s : UpdateState) :
    Outcome × UpdateState :=
  let s := { s with artifactRequests := s.artifactRequests ++ [url] }
  match env.artifact with
  | none => (.noData, s)
  | some bytes =>
    let s := { s with stagedFile := some bytes }
    let dbHash := hashBinaryFile env.cryptoDigest bytes hashfn
    let _ := dbHash
    let _ := hash
    applyNewRuleset s

/-- Embedding of `conditionallyApplyUpdate(update)` (rulesetUpdate.js lines
89-122): parse the manifest with JSON.parse (a parse failure throws, uncaught
— there is no try/catch in the module), read the three preference values,
apply the version gate and then the branch gate (each an early `return`),
fetch the signature document, trim it, verify it over the raw manifest bytes,
and on success fetch the ruleset database file with the manifest's `source`,
`hashfn` and `hash` fields. -/
def conditionallyApplyUpdate (env : Env) (update : String) (s : UpdateState) :
    Outcome × UpdateState :=
  match env.jsonParse update with
  | none => (.thrown "SyntaxError: JSON.parse", s)
  | some updateObj =>
    match checkVersionRequirements s.extVersion s.rulesetVersion updateObj.version with
    | .error e => (.thrown e, s)
    | .ok false => (.rejectedVersion, s)
    | .ok true =>
      if updateObj.branch ≠ .str s.extBranch then
        (.rejectedBranch, s)
      else
        let s := { s with sigRequests := s.sigRequests + 1 }
        let signature := jsTrim env.sigResponse
        let s := { s with sigVerifRuns := s.sigVerifRuns + 1 }
        if verifyUpdateSignature env update signature then
          fetchRulesetDBFile env updateObj.source updateObj.hashfn updateObj.hash s
        else
          (.sigFailure, s)

/-- Embedding of `fetchUpdate()` (rulesetUpdate.js lines 75-83): fetch the
manifest body from the configured URL and hand it to
`conditionallyApplyUpdate`. -/
def fetchUpdate (env : Env) (s : UpdateState) : Outcome × UpdateState :=
  conditionallyApplyUpdate env env.manifestResponse s

/-- Concrete initial world for the scenario theorems: extension version 1.2.3
on the stable branch, installed ruleset version 1.2.3.0, a live database with
some existing contents and no staged file. -/
def baseState : UpdateState where
  extVersion := "1.2.3"
  extBranch := "stable"
  rulesetVersion := "1.2.3.0"
  liveDB := .intact [9, 9]
  stagedFile := none
  sigRequests := 0
  sigVerifRuns := 0
  artifactRequests := []
  indexReinits := 0

/-- Manifest fixture: candidate version 1.2.3.1 (a strictly newer subversion
of extension 1.2.3) on the given branch, with the given source, hashfn and
hash fields. -/
def mkManifest (branch source hashfn hash : JSVal) : UpdateObj where
  version := .str "1.2.3.1"
  branch := branch
  source := source
  hashfn := hashfn
  hash := hash

/-- Environment fixture: the manifest body parses to `obj`, the signature
verifier returns `sigOk`, the artifact download delivers the three bytes
`[0, 1, 2]`, and every digest computation returns the two bytes `[0, 255]`
(hex `00ff`). -/
def mkEnv (obj : UpdateObj) (sigOk : Bool) : Env where
  jsonParse := fun _ => some obj
  verifyData := fun _ _ _ => sigOk
  sigResponse := " SIGBLOB "
  manifestResponse := "manifest-body"
  artifact := some [0, 1, 2]
  cryptoDigest := fun _ _ => [0, 255]

/-- Lowercase hexadecimal digit characters. -/
def hexDigitsLower : List Char := "0123456789abcdef".data

/-- Artifact source URL using the encrypted https scheme. -/
def srcHttps : JSVal := .str "https://example.org/rulesets.sqlite"

/-- Artifact source URL using the unencrypted http scheme. -/
def srcHttp : JSVal := .str "http://insecure.example.org/rulesets.sqlite"

/-- Happy-path scenario: correct branch, https source, sha256, manifest hash
`00ff` equal to the digest the oracle computes, valid signature. -/
def envHappy : Env :=
  mkEnv (mkManifest (.str "stable") srcHttps (.str "sha256") (.str "00ff")) true

/-- Integrity-mismatch scenario: like the happy path but the manifest's
`hash` field is `ffff`, different from the computed digest `00ff`. -/
def envBadHash : Env :=
  mkEnv (mkManifest (.str "stable") srcHttps (.str "sha256") (.str "ffff")) true

/-- Unsupported-digest scenario: like the happy path but the manifest names
the unrecognized digest algorithm `sha3`. -/
def envSha3 : Env :=
  mkEnv (mkManifest (.str "stable") srcHttps (.str "sha3") (.str "00ff")) true

/-- Unencrypted-source scenario: like the happy path but the manifest's
`source` URL uses the http scheme. -/
def envHttpSource : Env :=
  mkEnv (mkManifest (.str "stable") srcHttp (.str "sha256") (.str "00ff")) true

/-- Bad-signature scenario: the signature verifier rejects. -/
def envSigFail : Env :=
  mkEnv (mkManifest (.str "stable") srcHttps (.str "sha256") (.str "ffff")) false

/-- Wrong-branch scenario: manifest branch `beta` against configured branch
`stable`, everything else valid. -/
def envBranchBeta : Env :=
  mkEnv (mkManifest (.str "beta") srcHttps (.str "sha256") (.str "00ff")) true

/-- Malformed-manifest scenario: the manifest body does not parse as JSON. -/
def envParseFail : Env where
  jsonParse := fun _ => none
  verifyData := fun _ _ _ => true
  sigResponse := " SIGBLOB "
  manifestResponse := "not json"
  artifact := some [0, 1, 2]
  cryptoDigest := fun _ _ => [0, 255]

set_option maxRecDepth 8192 in
/-- Helper: for a byte value below 256, `toHexStr` yields exactly two
characters, all lowercase hexadecimal digits. -/
theorem toHexStr_byte : ∀ b < 256, (toHexStr b).length = 2 ∧
    ∀ c ∈ (toHexStr b).data, c ∈ hexDigitsLower := by decide

/-- Helper: joining the `toHexStr` renderings of a list of bytes yields a
string of exactly two characters per byte, all lowercase hexadecimal. -/
theorem hexJoin_spec (bs : List Nat) (hb : ∀ b ∈ bs, b < 256) :
    (String.join (bs.map toHexStr)).length = 2 * bs.length ∧
    ∀ c ∈ (String.join (bs.map toHexStr)).data, c ∈ hexDigitsLower := by
  induction bs with
  | nil => simp [String.join]
  | cons b bs ih =>
    have hb0 : b < 256 := hb b (by simp)
    have hbs : ∀ x ∈ bs, x < 256 := fun x hx => hb x (by simp [hx])
    obtain ⟨ih1, ih2⟩ := ih hbs
    obtain ⟨h1, h2⟩ := toHexStr_byte b hb0
    have hdata : (String.join ((b :: bs).map toHexStr)).data
        = (toHexStr b).data ++ (String.join (bs.map toHexStr)).data := by
      simp [String.data_join]
    refine ⟨?_, ?_⟩
    · rw [← String.length_data, hdata, List.length_append,
        String.length_data, String.length_data, h1, ih1]
      simp [List.length_cons]
      ring
    · intro c hc
      rw [hdata, List.mem_append] at hc
      rcases hc with hc | hc
      · exact h2 c hc
      · exact ih2 c hc

/-- Helper: the algorithm-name dispatch yields `none` exactly for names
outside the five accepted ones. -/
theorem hashAlgOfName_eq_none_iff (fn : String) :
    hashAlgOfName (.str fn) = none ↔
      fn ∉ ["md5", "sha1", "sha256", "sha384", "sha512"] := by
  unfold hashAlgOfName
  split_ifs with h1 h2 h3 h4 h5 <;> simp_all

/-- C10: `hashBinaryFile` returns null (`none`) exactly when its `hashfn`
argument is outside the set of five accepted names md5, sha1, sha256, sha384,
sha512; whenever it returns a string, the name was accepted and the string is
lowercase hexadecimal with exactly two characters per digest byte. -/
theorem hashBinaryFile_null_iff_and_hex (d : HashAlg → List Nat → List Nat)
    (content : List Nat) (fn : String)
    (hd : ∀ alg, ∀ b ∈ d alg content, b < 256) :
    (hashBinaryFile d content (.str fn) = none ↔
      fn ∉ ["md5", "sha1", "sha256", "sha384", "sha512"]) ∧
    ∀ h, hashBinaryFile d content (.str fn) = some h →
      ∃ alg, hashAlgOfName (.str fn) = some alg ∧
        h.length = 2 * (d alg content).length ∧
        ∀ c ∈ h.data, c ∈ hexDigitsLower := by
  have hiff := hashAlgOfName_eq_none_iff fn
  cases halg : hashAlgOfName (.str fn) with
  | none =>
    rw [halg] at hiff
    refine ⟨?_, ?_⟩
    · simp [hashBinaryFile, halg, hiff.mp rfl]
    · intro h hh
      simp [hashBinaryFile, halg] at hh
  | some alg =>
    rw [halg] at hiff
    have hfnmem : fn ∈ ["md5", "sha1", "sha256", "sha384", "sha512"] := by
      by_contra hnot
      exact Option.noConfusion (hiff.mpr hnot)
    refine ⟨?_, ?_⟩
    · simp [hashBinaryFile, halg, hfnmem]
    · intro h hh
      simp only [hashBinaryFile, halg, Option.some.injEq] at hh
      obtain ⟨hlen, hmem⟩ := hexJoin_spec (d alg content) (hd alg)
      subst hh
      exact ⟨alg, rfl, hlen, hmem⟩

/-- Witness for C10 at the concrete digest oracle returning `[0, 255]`,
content `[1]` and name `sha256`. -/
theorem hashBinaryFile_null_iff_and_hex_witness :
    (∀ alg, ∀ b ∈ (fun (_ : HashAlg) (_ : List Nat) => [0, 255]) alg [1], b < 256) ∧
    ((hashBinaryFile (fun _ _ => [0, 255]) [1] (.str "sha256") = none ↔
      "sha256" ∉ ["md5", "sha1", "sha256", "sha384", "sha512"]) ∧
    ∀ h, hashBinaryFile (fun _ _ => [0, 255]) [1] (.str "sha256") = some h →
      ∃ alg, hashAlgOfName (.str "sha256") = some alg ∧
        h.length = 2 * ((fun (_ : HashAlg) (_ : List Nat) => [0, 255]) alg [1]).length ∧
        ∀ c ∈ h.data, c ∈ hexDigitsLower) :=
  ⟨fun _ b hb => by fin_cases hb <;> decide,
   hashBinaryFile_null_iff_and_hex (fun _ _ => [0, 255]) [1] "sha256"
     (fun _ b hb => by fin_cases hb <;> decide)⟩

/-- C3 counterexample: with installed extension version 1.2.3 and installed
database version 1.2.0, candidate version 1.2.5 — which the claim says the
gate accepts — is rejected by `checkVersionRequirements`: the candidate's
parent component is `1.2`, which does not compare equal to `1.2.3`. -/
theorem checkVersionRequirements_cex_125 :
    checkVersionRequirements "1.2.3" "1.2.0" (.str "1.2.5") = .ok false := by
  rfl

/-- C3 (amended): the version gate accepts a candidate exactly when the
candidate's parent component (the slice before its last dot) compares equal
to the installed extension version and the candidate compares strictly
greater than the installed database version under the semantic dot-separated
ordering; consequently, with installed extension version 1.2.3 and installed
database version 1.2.0, candidate 1.2.5 is rejected (its parent component
1.2 differs from 1.2.3), candidate 1.3.0 is rejected, candidate 1.2.0 is
rejected, and a candidate such as 1.2.3.5 is accepted. -/
theorem checkVersionRequirements_spec :
    (∀ ext rs nv : String,
      checkVersionRequirements ext rs (.str nv) = .ok true ↔
        (versionCompare ext ⟨jsSlice nv.data 0 (jsLastIndexOf nv '.')⟩ = 0 ∧
          0 < versionCompare nv rs)) ∧
    checkVersionRequirements "1.2.3" "1.2.0" (.str "1.2.5") = .ok false ∧
    checkVersionRequirements "1.2.3" "1.2.0" (.str "1.3.0") = .ok false ∧
    checkVersionRequirements "1.2.3" "1.2.0" (.str "1.2.0") = .ok false ∧
    checkVersionRequirements "1.2.3" "1.2.0" (.str "1.2.3.5") = .ok true := by
  refine ⟨?_, by rfl, by rfl, by rfl, by rfl⟩
  intro ext rs nv
  simp [checkVersionRequirements, Bool.and_eq_true, beq_iff_eq, decide_eq_true_eq]

/-- C2: for every run in which the detached signature fails verification
against the embedded public key `RULESET_UPDATE_KEY`, the attempt leaves the
live database, the staged file and the list of issued artifact requests
unchanged and never reaches the `applied` outcome — regardless of the values
of the manifest's `source` and `hash` fields. -/
theorem sigFailure_no_mutation (env : Env) (update : String) (s : UpdateState)
    (hsig : env.verifyData update (jsTrim env.sigResponse) RULESET_UPDATE_KEY = false) :
    (conditionallyApplyUpdate env update s).2.liveDB = s.liveDB ∧
    (conditionallyApplyUpdate env update s).2.stagedFile = s.stagedFile ∧
    (conditionallyApplyUpdate env update s).2.artifactRequests = s.artifactRequests ∧
    (conditionallyApplyUpdate env update s).1 ≠ .applied := by
  unfold conditionallyApplyUpdate
  cases hp : env.jsonParse update with
  | none => simp
  | some obj =>
    dsimp only
    cases hv : checkVersionRequirements s.extVersion s.rulesetVersion obj.version with
    | error e => simp
    | ok b =>
      cases b with
      | false => simp
      | true =>
        by_cases hb : obj.branch = .str s.extBranch
        · simp [hb, verifyUpdateSignature, hsig]
        · simp [hb]

/-- Witness for C2: the bad-signature scenario environment on the base
state. -/
theorem sigFailure_no_mutation_witness :
    envSigFail.verifyData "manifest-body" (jsTrim envSigFail.sigResponse)
        RULESET_UPDATE_KEY = false ∧
    ((conditionallyApplyUpdate envSigFail "manifest-body" baseState).2.liveDB
        = baseState.liveDB ∧
      (conditionallyApplyUpdate envSigFail "manifest-body" baseState).2.stagedFile
        = baseState.stagedFile ∧
      (conditionallyApplyUpdate envSigFail "manifest-body" baseState).2.artifactRequests
        = baseState.artifactRequests ∧
      (conditionallyApplyUpdate envSigFail "manifest-body" baseState).1 ≠ .applied) :=
  ⟨rfl, sigFailure_no_mutation envSigFail "manifest-body" baseState rfl⟩

/-- C6: a manifest body that JSON.parse cannot parse is not turned into a
handled MalformedManifest outcome: there is no try/catch in the module, so
the SyntaxError escapes `conditionallyApplyUpdate` uncaught (the `thrown`
outcome), propagating to the scheduler's callback, with the state left as it
was. -/
theorem malformedManifest_uncaught (env : Env) (update : String) (s : UpdateState)
    (hp : env.jsonParse update = none) :
    conditionallyApplyUpdate env update s = (.thrown "SyntaxError: JSON.parse", s) := by
  simp [conditionallyApplyUpdate, hp]

/-- Witness for C6: the malformed-manifest scenario environment on the base
state. -/
theorem malformedManifest_uncaught_witness :
    envParseFail.jsonParse "not json" = none ∧
    conditionallyApplyUpdate envParseFail "not json" baseState
      = (.thrown "SyntaxError: JSON.parse", baseState) :=
  ⟨rfl, malformedManifest_uncaught envParseFail "not json" baseState rfl⟩

/-- C8: for every manifest whose `branch` field differs from the configured
release branch, the run leaves the state entirely unchanged and never reaches
the `applied` outcome; and when the version gate passes (newer, compatible
candidate — which also implies any signature, valid or not, is never even
consulted), the outcome is precisely the branch rejection. -/
theorem branchGate_rejects (env : Env) (update : String) (s : UpdateState)
    (obj : UpdateObj) (hp : env.jsonParse update = some obj)
    (hb : obj.branch ≠ .str s.extBranch) :
    (conditionallyApplyUpdate env update s).2 = s ∧
    (conditionallyApplyUpdate env update s).1 ≠ .applied ∧
    (checkVersionRequirements s.extVersion s.rulesetVersion obj.version = .ok true →
      (conditionallyApplyUpdate env update s).1 = .rejectedBranch) := by
  unfold conditionallyApplyUpdate
  rw [hp]
  dsimp only
  cases hv : checkVersionRequirements s.extVersion s.rulesetVersion obj.version with
  | error e => simp
  | ok b =>
    cases b with
    | false => simp
    | true => simp [hb]

/-- Witness for C8: the wrong-branch scenario (branch `beta` against
configured `stable`, valid signature, newer compatible version) on the base
state. -/
theorem branchGate_rejects_witness :
    envBranchBeta.jsonParse "manifest-body"
        = some (mkManifest (.str "beta") srcHttps (.str "sha256") (.str "00ff")) ∧
    (mkManifest (.str "beta") srcHttps (.str "sha256") (.str "00ff")).branch
        ≠ .str baseState.extBranch ∧
    ((conditionallyApplyUpdate envBranchBeta "manifest-body" baseState).2 = baseState ∧
      (conditionallyApplyUpdate envBranchBeta "manifest-body" baseState).1 ≠ .applied ∧
      (checkVersionRequirements baseState.extVersion baseState.rulesetVersion
          (mkManifest (.str "beta") srcHttps (.str "sha256") (.str "00ff")).version
            = .ok true →
        (conditionallyApplyUpdate envBranchBeta "manifest-body" baseState).1
          = .rejectedBranch)) :=
  ⟨rfl, by decide,
    branchGate_rejects envBranchBeta "manifest-body" baseState _ rfl (by decide)⟩

/-- C9: no request to the signature URL is issued and the signature verifier
never runs for a manifest rejected by the version gate or by the branch gate;
conversely, whenever a signature request was issued, both the version gate
and the branch gate had passed. -/
theorem sigFetch_gated (env : Env) (update : String) (s : UpdateState)
    (obj : UpdateObj) (hp : env.jsonParse update = some obj) :
    ((checkVersionRequirements s.extVersion s.rulesetVersion obj.version = .ok false ∨
        obj.branch ≠ .str s.extBranch) →
      (conditionallyApplyUpdate env update s).2.sigRequests = s.sigRequests ∧
      (conditionallyApplyUpdate env update s).2.sigVerifRuns = s.sigVerifRuns) ∧
    ((conditionallyApplyUpdate env update s).2.sigRequests ≠ s.sigRequests →
      checkVersionRequirements s.extVersion s.rulesetVersion obj.version = .ok true ∧
      obj.branch = .str s.extBranch) := by
  unfold conditionallyApplyUpdate
  rw [hp]
  dsimp only
  cases hv : checkVersionRequirements s.extVersion s.rulesetVersion obj.version with
  | error e => simp
  | ok b =>
    cases b with
    | false => simp
    | true =>
      by_cases hb : obj.branch = .str s.extBranch
      · refine ⟨fun h => ?_, fun _ => ⟨rfl, hb⟩⟩
        rcases h with h | h
        · cases h
        · exact absurd hb h
      · simp [hb]

/-- Witness for C9: the wrong-branch scenario on the base state. -/
theorem sigFetch_gated_witness :
    envBranchBeta.jsonParse "manifest-body"
        = some (mkManifest (.str "beta") srcHttps (.str "sha256") (.str "00ff")) ∧
    (((checkVersionRequirements baseState.extVersion baseState.rulesetVersion
          (mkManifest (.str "beta") srcHttps (.str "sha256") (.str "00ff")).version
            = .ok false ∨
        (mkManifest (.str "beta") srcHttps (.str "sha256") (.str "00ff")).branch
          ≠ .str baseState.extBranch) →
      (conditionallyApplyUpdate envBranchBeta "manifest-body" baseState).2.sigRequests
          = baseState.sigRequests ∧
      (conditionallyApplyUpdate envBranchBeta "manifest-body" baseState).2.sigVerifRuns
          = baseState.sigVerifRuns) ∧
    ((conditionallyApplyUpdate envBranchBeta "manifest-body" baseState).2.sigRequests
        ≠ baseState.sigRequests →
      checkVersionRequirements baseState.extVersion baseState.rulesetVersion
          (mkManifest (.str "beta") srcHttps (.str "sha256") (.str "00ff")).version
            = .ok true ∧
      (mkManifest (.str "beta") srcHttps (.str "sha256") (.str "00ff")).branch
          = .str baseState.extBranch)) :=
  ⟨rfl, sigFetch_gated envBranchBeta "manifest-body" baseState _ rfl⟩

/-- C1: evaluation of the code at a digest-mismatch input. In a scenario
where every gate passes, the computed digest of the staged artifact is `00ff`
while the manifest's `hash` field is `ffff`; the claim requires the attempt
to abort with the live database unmodified and the staged file deleted, but
because the comparison `if (dbHash == hash)` is commented out in
`fetchRulesetDBFile` (rulesetUpdate.js lines 199-206) the pipeline proceeds
into `applyNewRuleset`: the live `rulesets` and `targets` tables are dropped
(the database is modified), the staged file is NOT deleted, and the attempt
ends in an uncaught storage exception rather than a gated abort. -/
theorem digestMismatch_not_aborted :
    hashBinaryFile envBadHash.cryptoDigest [0, 1, 2] (.str "sha256") = some "00ff" ∧
    (mkManifest (.str "stable") srcHttps (.str "sha256") (.str "ffff")).hash
      ≠ .str "00ff" ∧
    (conditionallyApplyUpdate envBadHash "manifest-body" baseState).1
      = .thrown "NS_ERROR_FAILURE: no such table: targets" ∧
    (conditionallyApplyUpdate envBadHash "manifest-body" baseState).2.liveDB
      = .tablesDropped ∧
    baseState.liveDB = .intact [9, 9] ∧
    (conditionallyApplyUpdate envBadHash "manifest-body" baseState).2.stagedFile
      = some [0, 1, 2] := by
  refine ⟨rfl, by decide, rfl, rfl, rfl, rfl⟩

/-- C4: evaluation of the code at an unsupported-digest input. With the
manifest naming the digest algorithm `sha3`, `hashBinaryFile` returns null
(`none`) as intended, but the pipeline does not fail closed: the
commented-out comparison in `fetchRulesetDBFile` is the only consumer of that
value, so `applyNewRuleset` runs anyway, drops the live tables (the database
IS mutated) and dies in an uncaught storage exception — not the claimed
UnsupportedDigestAlgorithm outcome with no database mutation. -/
theorem unsupportedDigest_not_failClosed :
    hashAlgOfName (.str "sha3") = none ∧
    hashBinaryFile envSha3.cryptoDigest [0, 1, 2] (.str "sha3") = none ∧
    (conditionallyApplyUpdate envSha3 "manifest-body" baseState).1
      = .thrown "NS_ERROR_FAILURE: no such table: targets" ∧
    (conditionallyApplyUpdate envSha3 "manifest-body" baseState).2.liveDB
      = .tablesDropped ∧
    baseState.liveDB = .intact [9, 9] := by
  refine ⟨rfl, rfl, rfl, rfl, rfl⟩

/-- C5: evaluation of the code at a non-encrypted `source` URL. The manifest's
`source` uses the http scheme; the claim requires a hard validation failure
with no artifact fetched and no update applied, but `fetchRulesetDBFile`
contains no scheme check at all: the XHR is opened on the http URL, the
response bytes are written to the staging path, and the pipeline proceeds
into `applyNewRuleset`, which drops the live tables before throwing. -/
theorem httpSource_still_fetched :
    (conditionallyApplyUpdate envHttpSource "manifest-body" baseState).2.artifactRequests
      = [srcHttp] ∧
    (conditionallyApplyUpdate envHttpSource "manifest-body" baseState).2.stagedFile
      = some [0, 1, 2] ∧
    (conditionallyApplyUpdate envHttpSource "manifest-body" baseState).2.liveDB
      = .tablesDropped ∧
    baseState.liveDB ≠ .tablesDropped := by
  refine ⟨rfl, rfl, rfl, by decide⟩

/-- C7: the code never advances the installed ruleset-version preference —
for every run of `conditionallyApplyUpdate` the `rulesetVersion` field of the
resulting state equals the one it started from (there is no setCharPref
anywhere in the module) — and there is no successful apply to advance it
after: in the happy-path scenario the first full run passes every gate and
dies inside the swap, and re-running the pipeline against the same unchanged
manifest is not a no-op at the version gate: the gate still accepts the same
candidate and the run again reaches the swap attempt instead of stopping. -/
theorem rulesetVersion_never_advanced :
    (∀ env update s,
      (conditionallyApplyUpdate env update s).2.rulesetVersion = s.rulesetVersion) ∧
    (fetchUpdate envHappy baseState).1
      = .thrown "NS_ERROR_FAILURE: no such table: targets" ∧
    checkVersionRequirements (fetchUpdate envHappy baseState).2.extVersion
        (fetchUpdate envHappy baseState).2.rulesetVersion
        (mkManifest (.str "stable") srcHttps (.str "sha256") (.str "00ff")).version
      = .ok true ∧
    (fetchUpdate envHappy (fetchUpdate envHappy baseState).2).1
      = .thrown "NS_ERROR_FAILURE: no such table: rulesets" := by
  refine ⟨?_, rfl, rfl, rfl⟩
  intro env update s
  unfold conditionallyApplyUpdate
  cases hp : env.jsonParse update with
  | none => simp
  | some obj =>
    dsimp only
    cases hv : checkVersionRequirements s.extVersion s.rulesetVersion obj.version with
    | error e => simp
    | ok b =>
      cases b with
      | false => simp
      | true =>
        by_cases hb : obj.branch = .str s.extBranch
        · by_cases hs : verifyUpdateSignature env update (jsTrim env.sigResponse) = true
          · simp only [hb, hs, ne_eq, not_true_eq_false, if_false, if_true]
            unfold fetchRulesetDBFile
            cases ha : env.artifact with
            | none => simp
            | some bytes =>
              dsimp only
              unfold applyNewRuleset
              cases s.liveDB <;> simp
          · simp [hb, hs]
        · simp [hb]

end RulesetUpdate
